import Mathlib

/-!
Shallow embedding of the GoXLR-Utility USB command layer
(`src/usb/src/goxlr.rs`, `src/usb/src/commands.rs`, `src/usb/src/buttonstate.rs`)
and proofs about the natural-language specification's claims.

Byte buffers are `List Nat` (each element a byte value); machine integers are
`Nat` with explicit truncation where the Rust code truncates (`as u16` casts,
the wrapping `u16` sequence counter is a `Fin 65536`).  The USB transport is an
oracle: each round trip receives a `TransferOutcome` describing what the OUT
and IN control transfers would have produced.
-/

/-! ## Little-endian byte codec (byteorder::LittleEndian) -/

/-- Little-endian encoding of `v` into exactly `n` bytes, truncating high bits
(the truncation matches Rust's `as u16` / `write_u32` semantics). -/
def toLE : Nat → Nat → List Nat
  | 0, _ => []
  | n + 1, v => (v % 256) :: toLE n (v / 256)

/-- Little-endian reading of a byte list (`read_u16` / `read_u32`). -/
def fromLE : List Nat → Nat
  | [] => 0
  | b :: bs => b + 256 * fromLE bs

/-- `LittleEndian::write_uN(&mut buf[off .. off+w], v)`: overwrite `w` bytes of
`buf` at offset `off` with the little-endian encoding of `v`. -/
def writeLE (buf : List Nat) (off w v : Nat) : List Nat :=
  buf.take off ++ toLE w v ++ buf.drop (off + w)

/-! ## Command catalog (`src/usb/src/commands.rs`) -/

/-- `SystemInfoCommand` from commands.rs. -/
inductive SystemInfoCommand
  | FirmwareVersion
  | SupportsDCPCategory
  deriving DecidableEq

/-- `SystemInfoCommand::id` from commands.rs. -/
def SystemInfoCommand.id : SystemInfoCommand → Nat
  | .FirmwareVersion => 2
  | .SupportsDCPCategory => 1

/-- Modelled from the spec: the `ChannelName` enumeration lives in the
`goxlr-types` crate, which is not under `src/`.  The spec (§2, §8) and the
client CLI (`src/client/src/cli.rs`) list eleven channels, each carrying a
fixed small integer value used as the command sub-identifier. -/
inductive ChannelName
  | Mic | LineIn | Console | System | Game | Chat | Sample | Music
  | Headphones | MicMonitor | LineOut
  deriving DecidableEq

/-- Modelled from the spec: the fixed small integer value of each channel
(`channel as u8` in goxlr.rs); the concrete assignment is not under `src/`,
only its smallness matters (`sub_id < 4096 required`, spec §3). -/
def ChannelName.id : ChannelName → Nat
  | .Mic => 0
  | .LineIn => 1
  | .Console => 2
  | .System => 3
  | .Game => 4
  | .Chat => 5
  | .Sample => 6
  | .Music => 7
  | .Headphones => 8
  | .MicMonitor => 9
  | .LineOut => 10

/-- Modelled from the spec: the `FaderName` enumeration (fader slots A–D,
`fader_id_of` in spec §8) lives in the `goxlr-types` crate, not under `src/`. -/
inductive FaderName
  | A | B | C | D
  deriving DecidableEq

/-- Modelled from the spec: the fixed small integer value of each fader slot
(`fader as u32` in commands.rs). -/
def FaderName.id : FaderName → Nat
  | .A => 0
  | .B => 1
  | .C => 2
  | .D => 3

/-- Modelled from the spec: `InputDevice` (`src/usb/src/routing.rs` is not
under `src/`); it carries a numeric id (`input_device.id() as u32`) used as a
command sub-identifier, `sub_id < 4096 required` (spec §3). -/
structure InputDevice where
  id : Fin 4096
  deriving DecidableEq

/-- Modelled from the spec: `MicrophoneType` (`src/usb/src/microphone.rs` is
not under `src/`); its `id()` is the one-byte microphone type code written at
byte 0 of the 8-byte microphone configuration (spec §4.2). -/
structure MicrophoneType where
  id : Fin 256
  deriving DecidableEq

/-- Modelled from the spec: `ChannelState` (`src/usb/src/channelstate.rs` is
not under `src/`); a mute/unmute flag whose `id()` is the single body byte,
`0x00 = false (unmuted), 0x01 = true (muted)` (spec §4.2). -/
inductive ChannelState
  | Muted
  | Unmuted
  deriving DecidableEq

/-- Modelled from the spec: the one-byte encoding of a `ChannelState`. -/
def ChannelState.id : ChannelState → Nat
  | .Muted => 1
  | .Unmuted => 0

/-- `Command` from commands.rs. -/
inductive Command
  | SystemInfo (sub : SystemInfoCommand)
  | SetChannelState (channel : ChannelName)
  | SetChannelVolume (channel : ChannelName)
  | SetFader (fader : FaderName)
  | SetRouting (input_device : InputDevice)
  | SetButtonStates
  | SetMicrophoneType
  | SetColourMap
  | SetFaderDisplayMode (fader : FaderName)
  | SetScribble (fader : FaderName)
  | GetButtonStates
  deriving DecidableEq

/-- `Command::command_id` from commands.rs, line for line. -/
def Command.command_id : Command → Nat
  | .SystemInfo sub => sub.id
  | .SetChannelState channel => (0x809 <<< 12) ||| channel.id
  | .SetChannelVolume channel => (0x806 <<< 12) ||| channel.id
  | .SetFader fader => (0x805 <<< 12) ||| fader.id
  | .SetRouting input_device => (0x804 <<< 12) ||| input_device.id.val
  | .SetColourMap => (0x803 <<< 12) ||| 0x00
  | .SetButtonStates => (0x808 <<< 12) ||| 0x00
  | .SetFaderDisplayMode fader => (0x814 <<< 12) ||| fader.id
  | .SetScribble fader => (0x802 <<< 12) ||| fader.id
  | .GetButtonStates => (0x800 <<< 12) ||| 0x00
  | .SetMicrophoneType => (0x80b <<< 12) ||| 0x00

/-- The family (constructor) of a command, as a tag. -/
def Command.family : Command → Nat
  | .SystemInfo _ => 0
  | .SetChannelState _ => 1
  | .SetChannelVolume _ => 2
  | .SetFader _ => 3
  | .SetRouting _ => 4
  | .SetButtonStates => 5
  | .SetMicrophoneType => 6
  | .SetColourMap => 7
  | .SetFaderDisplayMode _ => 8
  | .SetScribble _ => 9
  | .GetButtonStates => 10

/-- The fixed per-family opcode of the spec's Command-ID derivation
`(family_opcode << 12) | sub_id` (spec §3); `SystemInfo` ids are raw, which is
opcode `0`. -/
def Command.familyOpcode : Command → Nat
  | .SystemInfo _ => 0
  | .SetChannelState _ => 0x809
  | .SetChannelVolume _ => 0x806
  | .SetFader _ => 0x805
  | .SetRouting _ => 0x804
  | .SetButtonStates => 0x808
  | .SetMicrophoneType => 0x80b
  | .SetColourMap => 0x803
  | .SetFaderDisplayMode _ => 0x814
  | .SetScribble _ => 0x802
  | .GetButtonStates => 0x800

/-- The sub-identifier of the spec's Command-ID derivation: `0` for stateless
families and the enumeration's numeric value otherwise (spec §3). -/
def Command.subId : Command → Nat
  | .SystemInfo sub => sub.id
  | .SetChannelState channel => channel.id
  | .SetChannelVolume channel => channel.id
  | .SetFader fader => fader.id
  | .SetRouting input_device => input_device.id.val
  | .SetButtonStates => 0
  | .SetMicrophoneType => 0
  | .SetColourMap => 0
  | .SetFaderDisplayMode fader => fader.id
  | .SetScribble fader => fader.id
  | .GetButtonStates => 0

/-! ## Buttons (`src/usb/src/buttonstate.rs`) -/

/-- `ButtonStates` from buttonstate.rs (per-button illumination codes). -/
inductive ButtonStates
  | Colour1
  | Colour2
  | DimmedColour1
  | DimmedColour2
  | Flashing
  deriving DecidableEq

/-- The discriminant of each `ButtonStates` value (`state as u8`). -/
def ButtonStates.toByte : ButtonStates → Nat
  | .Colour1 => 0x01
  | .Colour2 => 0x00
  | .DimmedColour1 => 0x02
  | .DimmedColour2 => 0x04
  | .Flashing => 0x03

/-- `Buttons` from buttonstate.rs: the 24 logical buttons. -/
inductive Buttons
  | Fader1Mute
  | Fader2Mute
  | Fader3Mute
  | Fader4Mute
  | Bleep
  | MicrophoneMute
  | EffectSelect1
  | EffectSelect2
  | EffectSelect3
  | EffectSelect4
  | EffectSelect5
  | EffectSelect6
  | EffectFx
  | EffectMegaphone
  | EffectRobot
  | EffectHardTune
  | SamplerSelectA
  | SamplerSelectB
  | SamplerSelectC
  | SamplerTopLeft
  | SamplerTopRight
  | SamplerBottomLeft
  | SamplerBottomRight
  | SamplerClear
  deriving DecidableEq, Fintype

/-- The assigned bit position of each button (`button as u8`), exactly the
discriminants written in buttonstate.rs. -/
def Buttons.id : Buttons → Nat
  | .Fader1Mute => 4
  | .Fader2Mute => 9
  | .Fader3Mute => 14
  | .Fader4Mute => 19
  | .Bleep => 22
  | .MicrophoneMute => 23
  | .EffectSelect1 => 0
  | .EffectSelect2 => 5
  | .EffectSelect3 => 11
  | .EffectSelect4 => 15
  | .EffectSelect5 => 1
  | .EffectSelect6 => 6
  | .EffectFx => 21
  | .EffectMegaphone => 20
  | .EffectRobot => 10
  | .EffectHardTune => 16
  | .SamplerSelectA => 2
  | .SamplerSelectB => 7
  | .SamplerSelectC => 12
  | .SamplerTopLeft => 3
  | .SamplerTopRight => 8
  | .SamplerBottomLeft => 17
  | .SamplerBottomRight => 13
  | .SamplerClear => 18

/-- `EnumSet::<Buttons>::all()` iterated in ascending bit order. -/
def allButtons : List Buttons :=
  [.EffectSelect1, .EffectSelect5, .SamplerSelectA, .SamplerTopLeft,
   .Fader1Mute, .EffectSelect2, .EffectSelect6, .SamplerSelectB,
   .SamplerTopRight, .Fader2Mute, .EffectRobot, .EffectSelect3,
   .SamplerSelectC, .SamplerBottomRight, .Fader3Mute, .EffectSelect4,
   .EffectHardTune, .SamplerBottomLeft, .SamplerClear, .Fader4Mute,
   .EffectMegaphone, .EffectFx, .Bleep, .MicrophoneMute]

/-! ## Frame codec (the 16-byte header built and parsed in
`GoXLR::request_data`, goxlr.rs lines 171–195) -/

/-- The request frame built in `request_data` (goxlr.rs 174–178): a 16-byte
zeroed header into which the command-ID is written as LE u32 at offset 0, the
body length (`body.len() as u16`) as LE u16 at offset 4 and the sequence
number as LE u16 at offset 6; the body is appended after the header. -/
def buildFrame (commandId seq : Nat) (body : List Nat) : List Nat :=
  writeLE (writeLE (writeLE (List.replicate 16 0) 0 4 commandId)
    4 2 body.length) 6 2 seq ++ body

/-- Reply-frame decode: `request_data` splits off the first 16 bytes as the
header and reads the declared body length at 4..6 and the echoed sequence
number at 6..8 (goxlr.rs 186–189); the command-ID field at 0..4 is read
following the header layout of the spec's Frame Codec (spec §4.3, §8), which
the code never re-reads.  Result: (command-ID, declared length, sequence,
body). -/
def decodeFrame (buf : List Nat) : Nat × Nat × Nat × List Nat :=
  let response_header := buf.take 16
  let response := buf.drop 16
  (fromLE (response_header.take 4),
   fromLE ((response_header.drop 4).take 2),
   fromLE ((response_header.drop 6).take 2),
   response)

/-! ## Device connection (`src/usb/src/goxlr.rs`) -/

/-- A `rusb::Error` value, abstract (its identity is all the claims need). -/
abbrev RusbError := Nat

/-- Connection state, mirroring `struct GoXLR` (goxlr.rs 21–30).  The fields
the embedding never inspects (`handle`, `device`, `device_descriptor`,
`timeout`, `language`) are opaque tokens; `command_count` is the `u16`
sequence counter. -/
structure GoXLR where
  handle : Nat
  device : Nat
  device_descriptor : Nat
  timeout : Nat
  language : Nat
  command_count : Fin 65536
  device_is_claimed : Bool
  deriving DecidableEq

deriving instance DecidableEq for Except

/-- Oracle for one round trip: what the USB transport would answer.
`writeResult = some e` means the OUT control transfer (vendor request 2)
fails with `e`; `readResult` is the IN control transfer's outcome (vendor
request 3), already truncated to the returned length as `read_control` does;
`interruptOk` is the discarded `await_interrupt` result. -/
structure TransferOutcome where
  writeResult : Option RusbError
  readResult : Except RusbError (List Nat)
  interruptOk : Bool
  deriving DecidableEq

/-- Result of `request_data`: the reply body, a propagated transport error, or
a panic (out-of-bounds slicing such as `split_off(16)` on a short buffer). -/
inductive ReqResult
  | ok (body : List Nat)
  | err (e : RusbError)
  | panicked
  deriving DecidableEq

/-- `true` exactly on `ReqResult.ok`. -/
def ReqResult.isOk : ReqResult → Bool
  | .ok _ => true
  | _ => false

/-- `GoXLR::request_data` (goxlr.rs 171–195): increment the sequence counter,
build the 16-byte-header frame, OUT-transfer it, wait, IN-transfer a reply of
up to 1040 bytes, split off the 16-byte header and return the remainder.
`split_off(16)` panics when the reply is shorter than 16 bytes.  The
`debug_assert!` validations at lines 191–192 are compiled out of release
builds and are modelled separately by `request_checks`.  Returns
(result, new state, the request frame written to the device). -/
def request_data (g : GoXLR) (command : Command) (body : List Nat)
    (t : TransferOutcome) : ReqResult × GoXLR × List Nat :=
  let command_index : Fin 65536 := g.command_count + 1
  let g' : GoXLR := { g with command_count := command_index }
  let full_request := buildFrame command.command_id command_index.val body
  let result : ReqResult :=
    match t.writeResult with
    | some e => .err e
    | none =>
      match t.readResult with
      | .error e => .err e
      | .ok buf => if 16 ≤ buf.length then .ok (buf.drop 16) else .panicked
  (result, g', full_request)

/-- The conditions of the two `debug_assert!` lines of `request_data`
(goxlr.rs 191–192): the reply body length equals the header's declared length
and the echoed sequence number equals the request's `command_index`. -/
def request_checks (command_index : Nat) (buf : List Nat) : Bool :=
  ((buf.drop 16).length == fromLE (((buf.take 16).drop 4).take 2)) &&
    (fromLE (((buf.take 16).drop 6).take 2) == command_index)

/-- The transport error (if any) an outcome delivers: the OUT transfer's
error, else the IN transfer's error. -/
def outcomeErr (t : TransferOutcome) : Option RusbError :=
  match t.writeResult with
  | some e => some e
  | none =>
    match t.readResult with
    | .error e => some e
    | .ok _ => none

/-- `true` when a round trip against this outcome panics: both transfers
succeed but the reply buffer is shorter than the 16-byte header. -/
def outcomePanics (t : TransferOutcome) : Bool :=
  match t.writeResult with
  | some _ => false
  | none =>
    match t.readResult with
    | .error _ => false
    | .ok buf => buf.length < 16

/-! ## Command facade (`src/usb/src/goxlr.rs` 211–318) -/

/-- Result of a facade operation. -/
inductive RunResult (α : Type)
  | ok (val : α)
  | err (e : RusbError)
  | panicked
  deriving DecidableEq

/-- The `?` operator followed by `Ok(())`: propagate errors, map success to
unit; a panic keeps unwinding. -/
def liftUnit : ReqResult → RunResult Unit
  | .ok _ => .ok ()
  | .err e => .err e
  | .panicked => .panicked

/-- A `request_data` call whose `Result` is dropped (no `?`): both success and
error continue as success; a panic still unwinds. -/
def swallowUnit : ReqResult → RunResult Unit
  | .panicked => .panicked
  | _ => .ok ()

/-- `GoXLR::set_fader` (goxlr.rs 211–215): body `[channel as u8, 0, 0, 0]`,
error propagated by `?`.  Returns (result, state, frames written). -/
def set_fader (g : GoXLR) (fader : FaderName) (channel : ChannelName)
    (t : TransferOutcome) : RunResult Unit × GoXLR × List (List Nat) :=
  let r := request_data g (.SetFader fader) [channel.id, 0x00, 0x00, 0x00] t
  (liftUnit r.1, r.2.1, [r.2.2])

/-- `GoXLR::set_volume` (goxlr.rs 217–220): body `[volume]`, `?`. -/
def set_volume (g : GoXLR) (channel : ChannelName) (volume : Fin 256)
    (t : TransferOutcome) : RunResult Unit × GoXLR × List (List Nat) :=
  let r := request_data g (.SetChannelVolume channel) [volume.val] t
  (liftUnit r.1, r.2.1, [r.2.2])

/-- `GoXLR::set_channel_state` (goxlr.rs 227–234): body `[state.id()]`, `?`. -/
def set_channel_state (g : GoXLR) (channel : ChannelName) (state : ChannelState)
    (t : TransferOutcome) : RunResult Unit × GoXLR × List (List Nat) :=
  let r := request_data g (.SetChannelState channel) [state.id] t
  (liftUnit r.1, r.2.1, [r.2.2])

/-- `GoXLR::set_button_states` (goxlr.rs 236–239): body
`data.map(|state| state as u8)`, `?`.  (The Rust parameter is
`[ButtonStates; 24]`; the fixed length does not matter here.) -/
def set_button_states (g : GoXLR) (data : List ButtonStates)
    (t : TransferOutcome) : RunResult Unit × GoXLR × List (List Nat) :=
  let r := request_data g .SetButtonStates (data.map ButtonStates.toByte) t
  (liftUnit r.1, r.2.1, [r.2.2])

/-- `GoXLR::set_button_colours` (goxlr.rs 241–244): the `request_data` result
is dropped (no `?`), then `Ok(())`.  (Rust parameter `[u8; 328]`.) -/
def set_button_colours (g : GoXLR) (data : List Nat)
    (t : TransferOutcome) : RunResult Unit × GoXLR × List (List Nat) :=
  let r := request_data g .SetColourMap data t
  (swallowUnit r.1, r.2.1, [r.2.2])

/-- `GoXLR::set_fader_display_mode` (goxlr.rs 246–262): body
`[gradientByte, meterByte]`; the `request_data` result is dropped (no `?`). -/
def set_fader_display_mode (g : GoXLR) (fader : FaderName)
    (gradient meter : Bool) (t : TransferOutcome) :
    RunResult Unit × GoXLR × List (List Nat) :=
  let gradientByte : Nat := if gradient then 0x01 else 0x00
  let meterByte : Nat := if meter then 0x01 else 0x00
  let r := request_data g (.SetFaderDisplayMode fader) [gradientByte, meterByte] t
  (swallowUnit r.1, r.2.1, [r.2.2])

/-- `GoXLR::set_fader_scribble` (goxlr.rs 264–272): the `request_data` result
is dropped (no `?`).  (Rust parameter `[u8; 1024]`.) -/
def set_fader_scribble (g : GoXLR) (fader : FaderName) (data : List Nat)
    (t : TransferOutcome) : RunResult Unit × GoXLR × List (List Nat) :=
  let r := request_data g (.SetScribble fader) data t
  (swallowUnit r.1, r.2.1, [r.2.2])

/-- `GoXLR::set_routing` (goxlr.rs 274–281): `?`.  (Rust parameter
`[u8; 22]`.) -/
def set_routing (g : GoXLR) (input_device : InputDevice) (data : List Nat)
    (t : TransferOutcome) : RunResult Unit × GoXLR × List (List Nat) :=
  let r := request_data g (.SetRouting input_device) data t
  (liftUnit r.1, r.2.1, [r.2.2])

/-- `GoXLR::set_microphone_type` (goxlr.rs 283–299): first a reset request
with an all-zero 8-byte body whose result is dropped, then `data[0] =
microphone_type.id(); data[6] = gain` and a second request with `?`. -/
def set_microphone_type (g : GoXLR) (microphone_type : MicrophoneType)
    (gain : Fin 256) (t1 t2 : TransferOutcome) :
    RunResult Unit × GoXLR × List (List Nat) :=
  let data0 : List Nat := List.replicate 8 0
  let r1 := request_data g .SetMicrophoneType data0 t1
  match r1.1 with
  | .panicked => (.panicked, r1.2.1, [r1.2.2])
  | _ =>
    let data := (data0.set 0 microphone_type.id.val).set 6 gain.val
    let r2 := request_data r1.2.1 .SetMicrophoneType data t2
    (liftUnit r2.1, r2.2.1, [r1.2.2, r2.2.2])

/-- `GoXLR::get_button_states` (goxlr.rs 301–318): request with empty body,
read a LE u32 bitmask from reply bytes 0..4, the mixer levels from reply
bytes 8..12, and collect every button whose bit is set.  Indexing panics when
the reply body is shorter than 12 bytes. -/
def get_button_states (g : GoXLR) (t : TransferOutcome) :
    RunResult (List Buttons × List Nat) × GoXLR × List (List Nat) :=
  let r := request_data g .GetButtonStates [] t
  match r.1 with
  | .err e => (.err e, r.2.1, [r.2.2])
  | .panicked => (.panicked, r.2.1, [r.2.2])
  | .ok result =>
    if 12 ≤ result.length then
      let button_states := fromLE (result.take 4)
      let mixers := [result.getD 8 0, result.getD 9 0, result.getD 10 0,
        result.getD 11 0]
      let pressed := allButtons.filter
        (fun button => button_states &&& (1 <<< button.id) != 0)
      (.ok (pressed, mixers), r.2.1, [r.2.2])
    else (.panicked, r.2.1, [r.2.2])

/-- Iterated round trips on one connection: run `request_data` once per
(command, body, outcome) triple, collecting each trip's result and the frame
written to the device. -/
def runRoundTrips (g : GoXLR) :
    List (Command × List Nat × TransferOutcome) →
      GoXLR × List (ReqResult × List Nat)
  | [] => (g, [])
  | (c, b, t) :: rest =>
    let r := request_data g c b t
    let rec_result := runRoundTrips r.2.1 rest
    (rec_result.1, (r.1, r.2.2) :: rec_result.2)

/-! ## Concrete fixtures for witnesses and counterexamples -/

/-- A freshly initialised connection (all opaque fields 0, counter 0). -/
def g0 : GoXLR := ⟨0, 0, 0, 0, 0, 0, false⟩

/-- A reply buffer whose header is all zero (declared length 0, echoed
sequence number 0) but which carries one body byte. -/
def badBuf : List Nat := List.replicate 16 0 ++ [7]

/-- Outcome: both transfers succeed, the reply is `badBuf` (mismatching both
`debug_assert!` conditions for any request with sequence number other than
0). -/
def tBad : TransferOutcome := ⟨none, .ok badBuf, true⟩

/-- Outcome: the OUT transfer fails with error 5. -/
def tErr5 : TransferOutcome := ⟨some 5, .ok [], true⟩

/-- Outcome: both transfers succeed, the reply is a bare 16-byte header
(empty body). -/
def tOkEmpty : TransferOutcome := ⟨none, .ok (List.replicate 16 0), true⟩

/-- Outcome: both transfers succeed but the IN transfer yields 0 bytes. -/
def tShortRead : TransferOutcome := ⟨none, .ok [], true⟩

/-- A 12-byte button-state reply body: bitmask 1 (bit 0 set), bytes 4..8 are
5,6,7,8 and bytes 8..12 are 9,10,11,12. -/
def buttonsBuf : List Nat :=
  List.replicate 16 0 ++ [1, 0, 0, 0, 5, 6, 7, 8, 9, 10, 11, 12]

/-- Outcome delivering `buttonsBuf`. -/
def tButtons : TransferOutcome := ⟨none, .ok buttonsBuf, true⟩

/-- Two successful round trips against `tOkEmpty`. -/
def trips2 : List (Command × List Nat × TransferOutcome) :=
  [(.GetButtonStates, [], tOkEmpty), (.SetButtonStates, [], tOkEmpty)]

/-! ## Helper lemmas -/

theorem toLE_length (n v : Nat) : (toLE n v).length = n := by
  induction n generalizing v with
  | zero => rfl
  | succ n ih => simp [toLE, ih]

theorem fromLE_toLE (n v : Nat) (h : v < 2 ^ (8 * n)) : fromLE (toLE n v) = v := by
  induction n generalizing v with
  | zero =>
      simp only [toLE, fromLE]
      omega
  | succ n ih =>
      have hdiv : v / 256 < 2 ^ (8 * n) := by
        have h8 : (2 : Nat) ^ (8 * (n + 1)) = 2 ^ (8 * n) * 256 := by ring
        rw [h8] at h
        omega
      simp [toLE, fromLE, ih _ hdiv]
      omega

theorem shiftLeft12_lor_eq (a b : Nat) (hb : b < 4096) :
    a <<< 12 ||| b = 4096 * a + b := by
  apply Nat.eq_of_testBit_eq
  intro j
  have hb' : b < 2 ^ 12 := hb
  have h4096 : (4096 : Nat) * a + b = 2 ^ 12 * a + b := by norm_num
  rw [Nat.testBit_lor, Nat.testBit_shiftLeft, h4096,
    Nat.testBit_mul_pow_two_add a hb' j]
  by_cases h : j < 12
  · have : ¬ (12 ≤ j) := by omega
    simp [h, this]
  · have h12 : 12 ≤ j := by omega
    have hfalse : b.testBit j = false :=
      Nat.testBit_lt_two_pow (lt_of_lt_of_le hb' (Nat.pow_le_pow_right (by omega) h12))
    simp [h, h12, hfalse]

theorem channelId_lt (c : ChannelName) : c.id < 4096 := by
  cases c <;> simp [ChannelName.id]

theorem faderId_lt (f : FaderName) : f.id < 4096 := by
  cases f <;> simp [FaderName.id]

theorem systemInfoId_lt (s : SystemInfoCommand) : s.id < 4096 := by
  cases s <;> simp [SystemInfoCommand.id]

theorem Command.subId_lt (c : Command) : c.subId < 4096 := by
  cases c with
  | SystemInfo sub => exact systemInfoId_lt sub
  | SetChannelState channel => exact channelId_lt channel
  | SetChannelVolume channel => exact channelId_lt channel
  | SetFader fader => exact faderId_lt fader
  | SetRouting input_device => exact input_device.id.isLt
  | SetFaderDisplayMode fader => exact faderId_lt fader
  | SetScribble fader => exact faderId_lt fader
  | _ => simp [Command.subId]

theorem Command.command_id_eq (c : Command) :
    c.command_id = (c.familyOpcode <<< 12) ||| c.subId := by
  cases c with
  | SystemInfo sub =>
      simp [Command.command_id, Command.familyOpcode, Command.subId]
  | _ => rfl

theorem Command.command_id_eq_mul_add (c : Command) :
    c.command_id = 4096 * c.familyOpcode + c.subId := by
  rw [Command.command_id_eq, shiftLeft12_lor_eq _ _ c.subId_lt]

theorem Command.command_id_lt (c : Command) : c.command_id < 2 ^ 32 := by
  have h := c.command_id_eq_mul_add
  have hs := c.subId_lt
  have hop : c.familyOpcode ≤ 0x814 := by cases c <;> simp [Command.familyOpcode]
  omega

theorem Command.family_ne_opcode_ne (c1 c2 : Command)
    (h : c1.family ≠ c2.family) : c1.familyOpcode ≠ c2.familyOpcode := by
  cases c1 <;> cases c2 <;> simp_all [Command.family, Command.familyOpcode]

theorem mem_allButtons (b : Buttons) : b ∈ allButtons := by
  cases b <;> simp [allButtons]

theorem buttonsId_lt (b : Buttons) : b.id < 24 := by
  cases b <;> simp [Buttons.id]

theorem buildFrame_eq (commandId seq : Nat) (body : List Nat) :
    buildFrame commandId seq body =
      toLE 4 commandId ++ toLE 2 body.length ++ toLE 2 seq ++
        List.replicate 8 0 ++ body := by
  simp [buildFrame, writeLE, toLE, List.replicate]

theorem request_data_err (g : GoXLR) (c : Command) (b : List Nat)
    (t : TransferOutcome) (e : RusbError) (h : outcomeErr t = some e) :
    (request_data g c b t).1 = .err e := by
  unfold request_data outcomeErr at *
  cases hw : t.writeResult with
  | some e' =>
      simp only [hw] at h ⊢
      simp_all
  | none =>
      cases hr : t.readResult with
      | error e' =>
          simp only [hw, hr] at h ⊢
          simp_all
      | ok buf => simp [hw, hr] at h

theorem request_data_panicked (g : GoXLR) (c : Command) (b : List Nat)
    (t : TransferOutcome) :
    (request_data g c b t).1 = .panicked ↔ outcomePanics t = true := by
  unfold request_data outcomePanics
  cases hw : t.writeResult with
  | some e' => simp
  | none =>
      cases hr : t.readResult with
      | error e' => simp
      | ok buf =>
          by_cases hlen : 16 ≤ buf.length <;> simp [hlen] <;> omega

theorem request_data_state (g : GoXLR) (c : Command) (b : List Nat)
    (t : TransferOutcome) :
    (request_data g c b t).2.1 = { g with command_count := g.command_count + 1 } := rfl

theorem request_data_frame (g : GoXLR) (c : Command) (b : List Nat)
    (t : TransferOutcome) :
    (request_data g c b t).2.2 =
      buildFrame c.command_id (g.command_count + 1).val b := rfl

theorem decode_buildFrame (cid seq : Nat) (body : List Nat)
    (hcid : cid < 2 ^ 32) (hseq : seq < 2 ^ 16) (hlen : body.length < 2 ^ 16) :
    decodeFrame (buildFrame cid seq body) = (cid, body.length, seq, body) := by
  rw [buildFrame_eq]
  simp only [decodeFrame, toLE, List.replicate, List.cons_append,
    List.nil_append, List.take_succ_cons, List.take_zero, List.drop_succ_cons,
    List.drop_zero, fromLE, Prod.mk.injEq]
  refine ⟨?_, ?_, ?_, trivial⟩ <;> omega

theorem land_shift_ne_zero (n i : Nat) :
    (n &&& (1 <<< i) != 0) = n.testBit i := by
  have h1 : (1 : Nat) <<< i = 2 ^ i := by
    rw [Nat.shiftLeft_eq, Nat.one_mul]
  rw [h1, Nat.and_two_pow]
  cases h : n.testBit i <;> simp [h, (Nat.two_pow_pos i).ne']

theorem runRoundTrips_count
    (ts : List (Command × List Nat × TransferOutcome)) :
    ∀ g : GoXLR, (runRoundTrips g ts).1.command_count.val =
      (g.command_count.val + ts.length) % 65536 := by
  induction ts with
  | nil =>
      intro g
      simp [runRoundTrips, Nat.mod_eq_of_lt g.command_count.isLt]
  | cons head tail ih =>
      intro g
      obtain ⟨c, b, t⟩ := head
      simp only [runRoundTrips]
      rw [ih, request_data_state]
      simp only [List.length_cons, Fin.add_def]
      have h1 : ((1 : Fin 65536)).val = 1 := rfl
      rw [h1]
      omega

theorem decodeFrame_seq (cid seq : Nat) (body : List Nat) (h : seq < 65536) :
    (decodeFrame (buildFrame cid seq body)).2.2.1 = seq := by
  rw [buildFrame_eq]
  simp only [decodeFrame, toLE, List.replicate, List.cons_append,
    List.nil_append, List.take_succ_cons, List.take_zero, List.drop_succ_cons,
    List.drop_zero, fromLE]
  omega

theorem runRoundTrips_frame_seq
    (ts : List (Command × List Nat × TransferOutcome)) :
    ∀ (g : GoXLR) (i : Nat), i < ts.length →
      (decodeFrame (((runRoundTrips g ts).2.getD i
          (ReqResult.panicked, [])).2)).2.2.1 =
        (g.command_count.val + (i + 1)) % 65536 := by
  induction ts with
  | nil =>
      intro g i h
      simp at h
  | cons head tail ih =>
      intro g i h
      obtain ⟨c, b, t⟩ := head
      cases i with
      | zero =>
          simp only [runRoundTrips, List.getD_cons_zero, request_data_frame]
          rw [decodeFrame_seq _ _ _ (g.command_count + 1).isLt]
          simp [Fin.add_def]
      | succ i' =>
          simp only [runRoundTrips, List.getD_cons_succ]
          rw [ih _ i' (by simpa using h), request_data_state]
          simp only [Fin.add_def]
          have h1 : ((1 : Fin 65536)).val = 1 := rfl
          rw [h1]
          omega

/-! ## C1 -/

/-- C1 (counterexample): a reply whose echoed sequence number (0) differs
from the request's (1) and whose body length (1) differs from the declared
length field (0) — both `debug_assert!` conditions fail — yet `request_data`
returns the body successfully instead of surfacing a protocol-
desynchronization error. -/
theorem C1_counterexample :
    (request_data g0 .GetButtonStates [] tBad).1 = .ok [7] ∧
    request_checks (g0.command_count + 1).val badBuf = false := by
  decide

/-- C1 (amended): `request_data` checks the echoed sequence number and the
declared body length only via `debug_assert!`, which release builds compile
out: whenever both transfers succeed and the reply is at least 16 bytes it
returns the body even when the checks fail, and every error it surfaces is a
transport error from the OUT or IN transfer, never a desynchronization
error. -/
theorem C1_release_ignores_desync :
    (∀ (g : GoXLR) (c : Command) (b : List Nat) (t : TransferOutcome)
      (buf : List Nat),
      t.writeResult = none → t.readResult = .ok buf → 16 ≤ buf.length →
      request_checks (g.command_count + 1).val buf = false →
      (request_data g c b t).1 = .ok (buf.drop 16)) ∧
    (∀ (g : GoXLR) (c : Command) (b : List Nat) (t : TransferOutcome)
      (e : RusbError),
      (request_data g c b t).1 = .err e →
      t.writeResult = some e ∨ t.readResult = .error e) := by
  constructor
  · intro g c b t buf hw hr hlen _
    unfold request_data
    rw [hw, hr]
    simp [hlen]
  · intro g c b t e h
    unfold request_data at h
    cases hw : t.writeResult with
    | some e' =>
        rw [hw] at h
        simp at h
        simp [hw, h]
    | none =>
        cases hr : t.readResult with
        | error e' =>
            rw [hw, hr] at h
            simp at h
            simp [hr, h]
        | ok buf =>
            rw [hw, hr] at h
            by_cases hlen : 16 ≤ buf.length <;> simp [hlen] at h

/-- C1 (witness): concrete instances for both halves of the amended claim. -/
theorem C1_witness :
    (16 ≤ badBuf.length ∧
      request_checks (g0.command_count + 1).val badBuf = false ∧
      (request_data g0 .GetButtonStates [] tBad).1 = .ok (badBuf.drop 16)) ∧
    ((request_data g0 .GetButtonStates [] tErr5).1 = .err 5 ∧
      (tErr5.writeResult = some 5 ∨ tErr5.readResult = .error 5)) :=
  ⟨⟨by decide, by decide,
      C1_release_ignores_desync.1 g0 .GetButtonStates [] tBad badBuf rfl rfl
        (by decide) (by decide)⟩,
   ⟨by decide,
      C1_release_ignores_desync.2 g0 .GetButtonStates [] tErr5 5 (by decide)⟩⟩

/-! ## C2 -/

/-- C2 (counterexample): the OUT transfer fails with error 5, yet
`set_button_colours` (which drops the `request_data` result, goxlr.rs 242)
returns success — a facade method does swallow a transfer error. -/
theorem C2_counterexample :
    outcomeErr tErr5 = some 5 ∧
    (set_button_colours g0 (List.replicate 328 0) tErr5).1 = .ok () := by
  decide

/-- C2 (amended): `set_fader`, `set_volume`, `set_channel_state`,
`set_button_states`, `set_routing` and `get_button_states` propagate the
transport failure of their underlying transfer unchanged, and so does
`set_microphone_type` for its second (configuration) request; but
`set_button_colours`, `set_fader_display_mode` and `set_fader_scribble`
discard the transfer result and return success even when the transfer fails,
and `set_microphone_type` likewise discards a failure of its first (reset)
request. -/
theorem C2_error_propagation :
    ∀ (g : GoXLR) (t t1 : TransferOutcome) (e : RusbError) (fader : FaderName)
      (channel : ChannelName) (volume : Fin 256) (state : ChannelState)
      (states : List ButtonStates) (colours scribble routing : List Nat)
      (input_device : InputDevice) (gradient meter : Bool)
      (mt : MicrophoneType) (gain : Fin 256) (buf1 : List Nat),
      outcomeErr t = some e →
      ((set_fader g fader channel t).1 = .err e ∧
       (set_volume g channel volume t).1 = .err e ∧
       (set_channel_state g channel state t).1 = .err e ∧
       (set_button_states g states t).1 = .err e ∧
       (set_routing g input_device routing t).1 = .err e ∧
       (get_button_states g t).1 = .err e ∧
       (set_microphone_type g mt gain t t).1 = .err e) ∧
      ((set_button_colours g colours t).1 = .ok () ∧
       (set_fader_display_mode g fader gradient meter t).1 = .ok () ∧
       (set_fader_scribble g fader scribble t).1 = .ok () ∧
       (t1.writeResult = none → t1.readResult = .ok buf1 → 16 ≤ buf1.length →
         (set_microphone_type g mt gain t t1).1 = .ok ())) := by
  intro g t t1 e fader channel volume state states colours scribble routing
    input_device gradient meter mt gain buf1 h
  have herr := fun g' c b => request_data_err g' c b t e h
  have hok : ∀ (g' : GoXLR) (c : Command) (b : List Nat),
      t1.writeResult = none → t1.readResult = .ok buf1 → 16 ≤ buf1.length →
      (request_data g' c b t1).1 = .ok (buf1.drop 16) := by
    intro g' c b hw hr hlen
    unfold request_data
    rw [hw, hr]
    simp [hlen]
  refine ⟨⟨?_, ?_, ?_, ?_, ?_, ?_, ?_⟩, ⟨?_, ?_, ?_, ?_⟩⟩
  · simp [set_fader, herr, liftUnit]
  · simp [set_volume, herr, liftUnit]
  · simp [set_channel_state, herr, liftUnit]
  · simp [set_button_states, herr, liftUnit]
  · simp [set_routing, herr, liftUnit]
  · simp [get_button_states, herr]
  · simp [set_microphone_type, herr, liftUnit]
  · simp [set_button_colours, herr, swallowUnit]
  · simp [set_fader_display_mode, herr, swallowUnit]
  · simp [set_fader_scribble, herr, swallowUnit]
  · intro hw hr hlen
    simp [set_microphone_type, herr, hok _ _ _ hw hr hlen, liftUnit]

/-- C2 (witness): concrete instances — every propagating method returns the
concrete transport error 5, every swallowing method returns success. -/
theorem C2_witness :
    outcomeErr tErr5 = some 5 ∧
    ((set_fader g0 .A .Mic tErr5).1 = .err 5 ∧
     (set_volume g0 .Mic 0 tErr5).1 = .err 5 ∧
     (set_channel_state g0 .Mic .Muted tErr5).1 = .err 5 ∧
     (set_button_states g0 [] tErr5).1 = .err 5 ∧
     (set_routing g0 ⟨0⟩ [] tErr5).1 = .err 5 ∧
     (get_button_states g0 tErr5).1 = .err 5 ∧
     (set_microphone_type g0 ⟨3⟩ 7 tErr5 tErr5).1 = .err 5) ∧
    ((set_button_colours g0 [] tErr5).1 = .ok () ∧
     (set_fader_display_mode g0 .A false false tErr5).1 = .ok () ∧
     (set_fader_scribble g0 .A [] tErr5).1 = .ok () ∧
     (set_microphone_type g0 ⟨3⟩ 7 tErr5 tOkEmpty).1 = .ok ()) := by
  refine ⟨by decide, ?_⟩
  have h := C2_error_propagation g0 tErr5 tOkEmpty 5 .A .Mic 0 .Muted [] [] []
    [] ⟨0⟩ false false ⟨3⟩ 7 (List.replicate 16 0) (by decide)
  exact ⟨h.1, h.2.1, h.2.2.1, h.2.2.2.1, h.2.2.2.2 rfl rfl (by decide)⟩

/-! ## C3 -/

/-- C3: `command_id` is pure and deterministic (equal inputs give equal
outputs); every Command-ID is `(family_opcode <<< 12) ||| sub_id` with the
fixed per-family opcode and the sub-identifier being 0 for stateless families
and the enumeration's numeric value otherwise; the sub-identifier is below
4096 and is exactly the low 12 bits of the ID; and commands of distinct
families never share an ID. -/
theorem C3_command_id_spec :
    (∀ c1 c2 : Command, c1 = c2 → c1.command_id = c2.command_id) ∧
    (∀ c : Command, c.command_id = (c.familyOpcode <<< 12) ||| c.subId) ∧
    (∀ c : Command, c.subId < 4096 ∧ c.command_id % 4096 = c.subId) ∧
    (∀ c1 c2 : Command, c1.family ≠ c2.family →
      c1.command_id ≠ c2.command_id) := by
  refine ⟨?_, Command.command_id_eq, ?_, ?_⟩
  · intro c1 c2 h
    rw [h]
  · intro c
    refine ⟨c.subId_lt, ?_⟩
    have h := c.command_id_eq_mul_add
    have hs := c.subId_lt
    omega
  · intro c1 c2 h
    have h1 := c1.command_id_eq_mul_add
    have h2 := c2.command_id_eq_mul_add
    have hs1 := c1.subId_lt
    have hs2 := c2.subId_lt
    have hop := Command.family_ne_opcode_ne c1 c2 h
    omega

/-- C3 (witness): determinism and non-collision exercised at concrete
commands. -/
theorem C3_witness :
    ((Command.SetFader .A) = (Command.SetFader .A) ∧
      (Command.SetFader .A).command_id = (Command.SetFader .A).command_id) ∧
    ((Command.SetFader .A).family ≠ Command.GetButtonStates.family ∧
      (Command.SetFader .A).command_id ≠ Command.GetButtonStates.command_id) :=
  ⟨⟨rfl, C3_command_id_spec.1 _ _ rfl⟩,
   ⟨by decide, C3_command_id_spec.2.2.2 _ _ (by decide)⟩⟩

/-! ## C4 -/

/-- C4: for every command and every body of length at most 1024, the frame
`request_data` writes is exactly the 16-byte header — command-ID as LE u32 at
offset 0, body length as LE u16 at offset 4, sequence number as LE u16 at
offset 6, zeros at offsets 8–15 — followed by the body unmodified, and
decoding that frame reproduces the command-ID, the sequence number and the
body exactly. -/
theorem C4_frame_roundtrip :
    ∀ (g : GoXLR) (c : Command) (body : List Nat) (t : TransferOutcome),
      body.length ≤ 1024 →
      ((request_data g c body t).2.2 =
        toLE 4 c.command_id ++ toLE 2 body.length ++
          toLE 2 (g.command_count + 1).val ++ List.replicate 8 0 ++ body ∧
       decodeFrame ((request_data g c body t).2.2) =
         (c.command_id, body.length, (g.command_count + 1).val, body)) := by
  intro g c body t hlen
  rw [request_data_frame, buildFrame_eq]
  refine ⟨rfl, ?_⟩
  rw [← buildFrame_eq]
  exact decode_buildFrame _ _ _ c.command_id_lt (g.command_count + 1).isLt
    (by omega)

/-- C4 (witness): the frame layout and round-trip at a concrete command and
body. -/
theorem C4_witness :
    ([1, 2] : List Nat).length ≤ 1024 ∧
    ((request_data g0 (.SetFader .A) [1, 2] tOkEmpty).2.2 =
      toLE 4 (Command.SetFader .A).command_id ++
        toLE 2 ([1, 2] : List Nat).length ++
        toLE 2 (g0.command_count + 1).val ++ List.replicate 8 0 ++ [1, 2] ∧
     decodeFrame ((request_data g0 (.SetFader .A) [1, 2] tOkEmpty).2.2) =
       ((Command.SetFader .A).command_id, ([1, 2] : List Nat).length,
         (g0.command_count + 1).val, [1, 2])) :=
  ⟨by decide, C4_frame_roundtrip g0 (.SetFader .A) [1, 2] tOkEmpty (by decide)⟩

/-! ## C5 -/

/-- C5 (counterexample): for the reply body
`[1,0,0,0, 5,6,7,8, 9,10,11,12]`, `get_button_states` returns as mixer levels
the bytes at offsets 8–11 (`[9,10,11,12]`), not the 4 bytes immediately
following the bitmask (`[5,6,7,8]`) as the claim states; the pressed set for
bitmask 1 is exactly the button at bit position 0. -/
theorem C5_counterexample :
    (get_button_states g0 tButtons).1 =
      .ok ([Buttons.EffectSelect1], [9, 10, 11, 12]) ∧
    ([9, 10, 11, 12] : List Nat) ≠ [5, 6, 7, 8] := by
  decide

/-- C5 (amended): `get_button_states` reads a 4-byte little-endian bitmask
from the start of the reply body and returns exactly those buttons whose
assigned bit position (0–23) is set; the mixer levels are the 4 bytes at
offsets 8–11 of the body (skipping bytes 4–7), not the bytes immediately
after the bitmask. -/
theorem C5_button_decode :
    ∀ (g : GoXLR) (t : TransferOutcome) (buf : List Nat),
      t.writeResult = none → t.readResult = .ok buf → 16 ≤ buf.length →
      12 ≤ (buf.drop 16).length →
      ∃ pressed mixers,
        (get_button_states g t).1 = .ok (pressed, mixers) ∧
        (∀ b : Buttons,
          b ∈ pressed ↔ (fromLE ((buf.drop 16).take 4)).testBit b.id = true) ∧
        mixers = [(buf.drop 16).getD 8 0, (buf.drop 16).getD 9 0,
          (buf.drop 16).getD 10 0, (buf.drop 16).getD 11 0] ∧
        (∀ b : Buttons, b.id < 24) := by
  intro g t buf hw hr hlen16 hlen12
  have hreq : (request_data g .GetButtonStates [] t).1 = .ok (buf.drop 16) := by
    unfold request_data
    rw [hw, hr]
    simp [hlen16]
  simp only [get_button_states, hreq, hlen12, if_true]
  refine ⟨_, _, rfl, ?_, rfl, fun b => buttonsId_lt b⟩
  intro b
  rw [List.mem_filter]
  simp [mem_allButtons, land_shift_ne_zero]

/-- C5 (witness): the amended claim at the concrete reply `buttonsBuf`. -/
theorem C5_witness :
    (16 ≤ buttonsBuf.length ∧ 12 ≤ (buttonsBuf.drop 16).length) ∧
    (∃ pressed mixers,
      (get_button_states g0 tButtons).1 = .ok (pressed, mixers) ∧
      (∀ b : Buttons,
        b ∈ pressed ↔
          (fromLE ((buttonsBuf.drop 16).take 4)).testBit b.id = true) ∧
      mixers = [(buttonsBuf.drop 16).getD 8 0, (buttonsBuf.drop 16).getD 9 0,
        (buttonsBuf.drop 16).getD 10 0, (buttonsBuf.drop 16).getD 11 0] ∧
      (∀ b : Buttons, b.id < 24)) :=
  ⟨⟨by decide, by decide⟩,
   C5_button_decode g0 tButtons buttonsBuf rfl rfl (by decide) (by decide)⟩

/-! ## C6 -/

/-- C6: provided its first round trip does not panic, `set_microphone_type`
issues exactly two requests, both with the `SetMicrophoneType` command-ID:
first the reset transaction with an all-zero 8-byte body, then the
configuration request whose byte 0 is the microphone type code, byte 6 the
gain, and all other bytes zero. -/
theorem C6_microphone_sequence :
    ∀ (g : GoXLR) (mt : MicrophoneType) (gain : Fin 256)
      (t1 t2 : TransferOutcome),
      outcomePanics t1 = false →
      (set_microphone_type g mt gain t1 t2).2.2 =
        [buildFrame Command.SetMicrophoneType.command_id
           (g.command_count + 1).val (List.replicate 8 0),
         buildFrame Command.SetMicrophoneType.command_id
           ((g.command_count + 1) + 1).val
           [mt.id.val, 0, 0, 0, 0, 0, gain.val, 0]] := by
  intro g mt gain t1 t2 hp
  have hnp : (request_data g .SetMicrophoneType (List.replicate 8 0) t1).1 ≠
      .panicked := by
    intro hcontra
    rw [request_data_panicked] at hcontra
    simp [hp] at hcontra
  cases hres : (request_data g .SetMicrophoneType (List.replicate 8 0) t1).1 with
  | panicked => exact absurd hres hnp
  | ok body =>
      simp only [List.replicate] at hres
      simp [set_microphone_type, hres, List.replicate, List.set,
        request_data_frame, request_data_state]
  | err e =>
      simp only [List.replicate] at hres
      simp [set_microphone_type, hres, List.replicate, List.set,
        request_data_frame, request_data_state]

/-- C6 (witness): the two-request reset-then-configure sequence at concrete
inputs. -/
theorem C6_witness :
    outcomePanics tOkEmpty = false ∧
    (set_microphone_type g0 ⟨3⟩ 7 tOkEmpty tOkEmpty).2.2 =
      [buildFrame Command.SetMicrophoneType.command_id
         (g0.command_count + 1).val (List.replicate 8 0),
       buildFrame Command.SetMicrophoneType.command_id
         ((g0.command_count + 1) + 1).val
         [(3 : Fin 256).val, 0, 0, 0, 0, 0, (7 : Fin 256).val, 0]] :=
  ⟨by decide, C6_microphone_sequence g0 ⟨3⟩ 7 tOkEmpty tOkEmpty (by decide)⟩

/-! ## C7 -/

/-- C7: `set_fader` issues exactly one request, whose body is
`[channel id, 0, 0, 0]` and whose command-ID is `(0x805 <<< 12) ||| fader
id`. -/
theorem C7_set_fader_frame :
    ∀ (g : GoXLR) (fader : FaderName) (channel : ChannelName)
      (t : TransferOutcome),
      (set_fader g fader channel t).2.2 =
        [buildFrame ((0x805 <<< 12) ||| fader.id) (g.command_count + 1).val
          [channel.id, 0x00, 0x00, 0x00]] := by
  intro g fader channel t
  rfl

/-! ## C8 -/

/-- C8: after N consecutive successful round trips the 16-bit sequence
counter equals (initial + N) mod 65536 and is never reset, and the sequence
number placed in the i-th (1-based) request frame is (initial + i) mod
65536. -/
theorem C8_sequence_counter :
    ∀ (g : GoXLR) (ts : List (Command × List Nat × TransferOutcome)),
      (∀ p ∈ (runRoundTrips g ts).2, p.1.isOk = true) →
      ((runRoundTrips g ts).1.command_count.val =
          (g.command_count.val + ts.length) % 65536 ∧
       ∀ i, i < ts.length →
         (decodeFrame (((runRoundTrips g ts).2.getD i
             (ReqResult.panicked, [])).2)).2.2.1 =
           (g.command_count.val + (i + 1)) % 65536) :=
  fun g ts _ =>
    ⟨runRoundTrips_count ts g, fun i h => runRoundTrips_frame_seq ts g i h⟩

/-- C8 (witness): two concrete successful round trips advance the counter
from 0 to 2 and stamp sequence numbers 1 and 2. -/
theorem C8_witness :
    (∀ p ∈ (runRoundTrips g0 trips2).2, p.1.isOk = true) ∧
    ((runRoundTrips g0 trips2).1.command_count.val =
        (g0.command_count.val + trips2.length) % 65536 ∧
     ∀ i, i < trips2.length →
       (decodeFrame (((runRoundTrips g0 trips2).2.getD i
           (ReqResult.panicked, [])).2)).2.2.1 =
         (g0.command_count.val + (i + 1)) % 65536) :=
  ⟨by decide, C8_sequence_counter g0 trips2 (by decide)⟩

/-! ## C9 -/

/-- C9: whether a round trip succeeds or fails, `request_data` changes only
the sequence counter (incremented by one, wrapping); the handle, device,
device descriptor, timeout, language and claim flag are untouched. -/
theorem C9_frame_effect :
    ∀ (g : GoXLR) (c : Command) (b : List Nat) (t : TransferOutcome),
      ((request_data g c b t).2.1.handle = g.handle ∧
       (request_data g c b t).2.1.device = g.device ∧
       (request_data g c b t).2.1.device_descriptor = g.device_descriptor ∧
       (request_data g c b t).2.1.timeout = g.timeout ∧
       (request_data g c b t).2.1.language = g.language ∧
       (request_data g c b t).2.1.device_is_claimed = g.device_is_claimed) ∧
      (request_data g c b t).2.1.command_count = g.command_count + 1 :=
  fun g c b t => ⟨⟨rfl, rfl, rfl, rfl, rfl, rfl⟩, rfl⟩

/-! ## C10 -/

/-- C10: reply decoding is guard-free — when both transfers succeed,
`request_data` panics exactly when the IN transfer yields fewer than 16
bytes, and `get_button_states` panics exactly when the reply body is shorter
than 12 bytes; neither surfaces an error for short replies. -/
theorem C10_short_reply_panics :
    (∀ (g : GoXLR) (c : Command) (b : List Nat) (t : TransferOutcome)
      (buf : List Nat),
      t.writeResult = none → t.readResult = .ok buf →
      ((request_data g c b t).1 = .panicked ↔ buf.length < 16)) ∧
    (∀ (g : GoXLR) (t : TransferOutcome) (buf : List Nat),
      t.writeResult = none → t.readResult = .ok buf → 16 ≤ buf.length →
      ((get_button_states g t).1 = RunResult.panicked ↔
        (buf.drop 16).length < 12)) := by
  constructor
  · intro g c b t buf hw hr
    unfold request_data
    rw [hw, hr]
    by_cases hlen : 16 ≤ buf.length <;> simp [hlen] <;> omega
  · intro g t buf hw hr hlen16
    have hreq : (request_data g .GetButtonStates [] t).1 =
        .ok (buf.drop 16) := by
      unfold request_data
      rw [hw, hr]
      simp [hlen16]
    by_cases h12 : 12 ≤ buf.length - 16 <;>
      simp [get_button_states, hreq, h12, List.length_drop] <;> omega

/-- C10 (witness): a 0-byte reply makes `request_data` panic; a bare 16-byte
header (empty body) makes `get_button_states` panic. -/
theorem C10_witness :
    ((request_data g0 .GetButtonStates [] tShortRead).1 = .panicked ↔
      ([] : List Nat).length < 16) ∧
    ((get_button_states g0 tOkEmpty).1 = RunResult.panicked ↔
      ((List.replicate 16 0).drop 16).length < 12) :=
  ⟨C10_short_reply_panics.1 g0 .GetButtonStates [] tShortRead [] rfl rfl,
   C10_short_reply_panics.2 g0 tOkEmpty (List.replicate 16 0) rfl rfl
     (by decide)⟩
